import Mathlib

/-!
Verification of the FOOM token ledger and engagement-gating engine.

This file gives a shallow embedding of the balance ledger, the idempotent
reward-crediting protocol, the unlock-session state machine and the
investment subledger, translated from the TypeScript services
(RewardsService, BlockerService, WalletService), and proves or refutes the
stated properties of the engine.

Modelling conventions:
- JavaScript numbers holding token amounts, timestamps and minutes are
  integers in every code path modelled here, so they are embedded as Int;
  Math.floor of an integer division is Int.fdiv.
- Investment unit counts are real-valued (amount / unitPrice); they are
  embedded as rationals.
- The per-user persisted state (the users/uid document, its transactions
  subcollection, its investments subcollection, and the processedWindows
  markers keyed by that user) is a single UserState value; each service
  call is a function from UserState to UserState paired with the result
  the caller sees. Firestore runTransaction bodies are atomic, so one
  whole transaction is one function application.
- Nondeterministic collaborators (the payment gateway, the usage-stats
  module, wall-clock time) are passed in as explicit arguments.
-/

/-- Configured constants, from APP_CONFIG in src/src/config/contsants.ts.
Each value is parsed from an environment variable with a numeric default. -/
structure AppConfig where
  tokensPerHour : Int
  unlockCostTokens : Int
  unlockDurationMinutes : Int
deriving DecidableEq, Repr

/-- The default configuration: TOKENS_PER_HOUR = 10, UNLOCK_COST_TOKENS = 20,
UNLOCK_DURATION_MINUTES = 60. -/
def defaultConfig : AppConfig :=
  { tokensPerHour := 10, unlockCostTokens := 20, unlockDurationMinutes := 60 }

/-- Transaction types (APP_CONFIG.TRANSACTION_TYPES). -/
inductive TxType where
  | reward
  | unlock
  | purchase
  | investment
  | withdrawal
deriving DecidableEq, Repr

/-- Type-specific metadata of a Transaction entry (the metadata field of the
Transaction interface in the types module). -/
structure TxMetadata where
  appPackage : Option String := none
  appName : Option String := none
  minutes : Option Int := none
  mmfId : Option String := none
  mmfName : Option String := none
  phoneNumber : Option String := none
  windowStart : Option Int := none
  windowEnd : Option Int := none
deriving DecidableEq, Repr

/-- One immutable Transaction entry appended to the per-user transactions
subcollection. balance is the snapshot of the balance after this entry. -/
structure Transaction where
  type : TxType
  amount : Int
  balance : Int
  timestamp : Int
  metadata : TxMetadata
deriving DecidableEq, Repr

/-- An unlock session embedded in the user document (UnlockSession interface). -/
structure UnlockSession where
  packageName : String
  unlockedAt : Int
  expiresAt : Int
deriving DecidableEq, Repr

/-- An investment position appended to the per-user investments subcollection
(Investment interface). units is real-valued: amount / unitPriceAtPurchase. -/
structure Investment where
  mmfId : String
  mmfName : String
  amount : Int
  units : ℚ
  timestamp : Int
deriving DecidableEq, Repr

/-- The mutable per-user balance record (the users/uid document fields the
engine mutates). The serverTimestamp updatedAt field carries no information
used by any operation and is omitted. -/
structure UserRecord where
  tokensBalance : Int
  lockedApps : List String
  unlockSessions : List UnlockSession
  mmfPreference : Option String
deriving DecidableEq, Repr

/-- All persisted state the engine keeps for one user: the balance record,
the append-only transaction log, the append-only investment positions, and
the set of processed reward-window ids (idempotency markers). -/
structure UserState where
  record : UserRecord
  transactions : List Transaction
  investments : List Investment
  processedWindows : List String
deriving DecidableEq, Repr

/-- A fresh user record as provisioned by the identity collaborator:
zero balance, empty sets. -/
def initialUserState : UserState :=
  { record := { tokensBalance := 0, lockedApps := [], unlockSessions := [],
                mmfPreference := none },
    transactions := [], investments := [], processedWindows := [] }

/-! ## RewardsService -/

/-- RewardsService.calculateTokens: floor(totalMinutes / 60) * TOKENS_PER_HOUR.
Math.floor of the real division is floor division on integers. -/
def calculateTokens (cfg : AppConfig) (totalMinutes : Int) : Int :=
  Int.fdiv totalMinutes 60 * cfg.tokensPerHour

/-- RewardsService.generateWindowId: the deterministic idempotency key
uid_startMillis_endMillis. -/
def generateWindowId (uid : String) (startMillis endMillis : Int) : String :=
  uid ++ "_" ++ toString startMillis ++ "_" ++ toString endMillis

/-- RewardsService.awardTokensForWindow (creditWindow). Arguments beyond the
TypeScript signature: fetchedMinutes is the value the usage collaborator
would return for the window (used when manualMinutes is absent) and now is
the wall clock. Returns the updated state and the pair
(tokensAwarded, totalMinutes). -/
def awardTokensForWindow (cfg : AppConfig) (uid : String)
    (startMillis endMillis : Int) (manualMinutes : Option Int)
    (fetchedMinutes : Int) (now : Int) (st : UserState) :
    UserState × Int × Int :=
  let windowId := generateWindowId uid startMillis endMillis
  if windowId ∈ st.processedWindows then
    (st, 0, 0)
  else
    let totalMinutes :=
      match manualMinutes with
      | some m => m
      | none => fetchedMinutes
    let tokensAwarded := calculateTokens cfg totalMinutes
    if tokensAwarded = 0 then
      ({ st with processedWindows := st.processedWindows ++ [windowId] },
       0, totalMinutes)
    else
      let currentBalance := st.record.tokensBalance
      let newBalance := currentBalance + tokensAwarded
      let entry : Transaction :=
        { type := TxType.reward, amount := tokensAwarded, balance := newBalance,
          timestamp := now,
          metadata := { minutes := some totalMinutes,
                        windowStart := some startMillis,
                        windowEnd := some endMillis } }
      ({ st with
          record := { st.record with tokensBalance := newBalance },
          transactions := st.transactions ++ [entry],
          processedWindows := st.processedWindows ++ [windowId] },
       tokensAwarded, totalMinutes)

/-! ## BlockerService -/

/-- Helper for jsSetDedup: insert elements left to right, skipping those
already seen. -/
def jsSetDedupAux (seen : List String) : List String → List String
  | [] => []
  | a :: l =>
    if a ∈ seen then jsSetDedupAux seen l
    else a :: jsSetDedupAux (a :: seen) l

/-- Array.from(new Set(xs)) on lists of package names: deduplicate, keeping
the first occurrence of each element in order. -/
def jsSetDedup (l : List String) : List String := jsSetDedupAux [] l

/-- The caller-visible result of BlockerService.unlockApp. -/
structure UnlockResult where
  success : Bool
  newBalance : Int
  message : String
deriving DecidableEq, Repr

/-- BlockerService.unlockApp (spendUnlock): one atomic Firestore transaction
that checks the balance against UNLOCK_COST_TOKENS, debits it, removes the
package from lockedApps, drops already-expired sessions, appends the new
session and appends one unlock Transaction entry. On insufficient balance it
returns a failure result without touching the state. -/
def unlockApp (cfg : AppConfig) (now : Int) (packageName appName : String)
    (st : UserState) : UserState × UnlockResult :=
  let unlockCost := cfg.unlockCostTokens
  let unlockDurationMs := cfg.unlockDurationMinutes * 60 * 1000
  let currentBalance := st.record.tokensBalance
  if currentBalance < unlockCost then
    (st, { success := false, newBalance := currentBalance,
           message := "Insufficient tokens. You need " ++ toString unlockCost ++
             " tokens but have " ++ toString currentBalance ++ "." })
  else
    let newBalance := currentBalance - unlockCost
    let expiresAt := now + unlockDurationMs
    let updatedLockedApps := st.record.lockedApps.filter (fun pkg => pkg ≠ packageName)
    let newSession : UnlockSession :=
      { packageName := packageName, unlockedAt := now, expiresAt := expiresAt }
    let activeSessions :=
      st.record.unlockSessions.filter (fun s => s.expiresAt > now) ++ [newSession]
    let entry : Transaction :=
      { type := TxType.unlock, amount := -unlockCost, balance := newBalance,
        timestamp := now,
        metadata := { appPackage := some packageName, appName := some appName } }
    ({ st with
       record := { st.record with
                   tokensBalance := newBalance,
                   lockedApps := updatedLockedApps,
                   unlockSessions := activeSessions },
       transactions := st.transactions ++ [entry] },
     { success := true, newBalance := newBalance,
       message := appName ++ " unlocked for " ++
         toString cfg.unlockDurationMinutes ++ " minutes!" })

/-- The read half of BlockerService.relockExpiredSessions: a plain get of the
user document, outside any transaction, yielding a snapshot. -/
def relockRead (st : UserState) : UserRecord := st.record

/-- The write half of BlockerService.relockExpiredSessions: from the snapshot
snap it partitions unlockSessions into expired (expiresAt ≤ now) and active,
returns without writing if nothing expired, and otherwise issues a plain
update that overwrites lockedApps (union of snapshot lockedApps and expired
packages, deduplicated) and unlockSessions (the snapshot active list) on the
current document st. -/
def relockWrite (now : Int) (snap : UserRecord) (st : UserState) : UserState :=
  let expiredSessions := snap.unlockSessions.filter (fun s => s.expiresAt ≤ now)
  let activeSessions := snap.unlockSessions.filter (fun s => s.expiresAt > now)
  if expiredSessions.isEmpty then st
  else
    let expiredPackages := expiredSessions.map (fun s => s.packageName)
    let updatedLockedApps := jsSetDedup (snap.lockedApps ++ expiredPackages)
    { st with
      record := { st.record with
                  lockedApps := updatedLockedApps,
                  unlockSessions := activeSessions } }

/-- BlockerService.relockExpiredSessions (reconcile) run without
interference: the read immediately followed by the write. -/
def relockExpiredSessions (now : Int) (st : UserState) : UserState :=
  relockWrite now (relockRead st) st

/-- BlockerService.lockApp: add a package to lockedApps if absent (no token
cost, no session interaction). -/
def lockApp (packageName : String) (st : UserState) : UserState :=
  if packageName ∈ st.record.lockedApps then st
  else { st with record := { st.record with
          lockedApps := st.record.lockedApps ++ [packageName] } }

/-- BlockerService.unlockAppPermanently: remove a package from lockedApps. -/
def unlockAppPermanently (packageName : String) (st : UserState) : UserState :=
  { st with record := { st.record with
      lockedApps := st.record.lockedApps.filter (fun pkg => pkg ≠ packageName) } }

/-- BlockerService.lockMultipleApps: union packageNames into lockedApps,
deduplicated. -/
def lockMultipleApps (packageNames : List String) (st : UserState) : UserState :=
  { st with record := { st.record with
      lockedApps := jsSetDedup (st.record.lockedApps ++ packageNames) } }

/-- BlockerService.unlockMultipleAppsPermanently: remove all the given
packages from lockedApps. -/
def unlockMultipleAppsPermanently (packageNames : List String)
    (st : UserState) : UserState :=
  { st with record := { st.record with
      lockedApps := st.record.lockedApps.filter
        (fun pkg => pkg ∉ packageNames) } }

/-! ## WalletService -/

/-- The caller-visible result of purchaseTokens and withdrawTokens. -/
structure WalletResult where
  success : Bool
  message : String
  newBalance : Int
deriving DecidableEq, Repr

/-- WalletService.purchaseTokens: validate the phone number and the amount,
simulate the payment (its outcome is the paymentSuccess argument), then in
one atomic transaction credit the balance and append one purchase entry. -/
def purchaseTokens (now : Int) (tokenAmount : Int) (phoneNumber : String)
    (paymentSuccess : Bool) (st : UserState) : UserState × WalletResult :=
  if phoneNumber.length < 10 then
    (st, { success := false, message := "Invalid phone number", newBalance := 0 })
  else if tokenAmount ≤ 0 then
    (st, { success := false, message := "Amount must be greater than 0",
           newBalance := 0 })
  else if paymentSuccess = false then
    (st, { success := false, message := "Payment failed. Please try again.",
           newBalance := 0 })
  else
    let currentBalance := st.record.tokensBalance
    let newBalance := currentBalance + tokenAmount
    let entry : Transaction :=
      { type := TxType.purchase, amount := tokenAmount, balance := newBalance,
        timestamp := now, metadata := { phoneNumber := some phoneNumber } }
    ({ st with
       record := { st.record with tokensBalance := newBalance },
       transactions := st.transactions ++ [entry] },
     { success := true,
       message := "Successfully purchased " ++ toString tokenAmount ++ " tokens",
       newBalance := newBalance })

/-- The caller-visible result of investInMMF. -/
structure InvestResult where
  success : Bool
  message : String
deriving DecidableEq, Repr

/-- WalletService.investInMMF: validate tokenAmount and unitPrice, compute
units = tokenAmount / unitPrice, simulate the payment when a phone number is
given, then in one atomic transaction: if funding from balance, require
tokensBalance ≥ tokenAmount and debit it, else leave the balance unchanged;
set mmfPreference to the fund id; append the Investment position and one
investment Transaction entry whose amount is positive when externally funded
and negative when balance funded. -/
def investInMMF (now : Int) (mmfId mmfName : String)
    (tokenAmount unitPrice : Int) (phoneNumber : Option String)
    (paymentSuccess : Bool) (st : UserState) : UserState × InvestResult :=
  if tokenAmount ≤ 0 then
    (st, { success := false,
           message := "Investment amount must be greater than 0" })
  else if unitPrice ≤ 0 then
    (st, { success := false, message := "Invalid unit price" })
  else
    let units : ℚ := (tokenAmount : ℚ) / (unitPrice : ℚ)
    if phoneNumber.isSome ∧ paymentSuccess = false then
      (st, { success := false, message := "Payment failed. Please try again." })
    else if phoneNumber.isNone ∧ st.record.tokensBalance < tokenAmount then
      (st, { success := false,
             message := "Failed to invest: Insufficient token balance" })
    else
      let currentBalance := st.record.tokensBalance
      let newBalance :=
        if phoneNumber.isSome then currentBalance
        else currentBalance - tokenAmount
      let inv : Investment :=
        { mmfId := mmfId, mmfName := mmfName, amount := tokenAmount,
          units := units, timestamp := now }
      let entry : Transaction :=
        { type := TxType.investment,
          amount := if phoneNumber.isSome then tokenAmount else -tokenAmount,
          balance := newBalance, timestamp := now,
          metadata := { mmfId := some mmfId, mmfName := some mmfName,
                        phoneNumber := phoneNumber } }
      ({ st with
         record := { st.record with
                     tokensBalance := newBalance,
                     mmfPreference := some mmfId },
         transactions := st.transactions ++ [entry],
         investments := st.investments ++ [inv] },
       { success := true,
         message := "Successfully invested " ++ toString tokenAmount ++
           " tokens in " ++ mmfName })

/-- WalletService.withdrawTokens: validate the amount and phone number, then
in one atomic transaction require tokensBalance ≥ amount, debit it and append
one withdrawal entry; the insufficient-balance throw is caught and surfaced
as a failure result with the state untouched. -/
def withdrawTokens (now : Int) (amount : Int) (phoneNumber : String)
    (st : UserState) : UserState × WalletResult :=
  if amount ≤ 0 then
    (st, { success := false,
           message := "Withdrawal amount must be greater than 0",
           newBalance := 0 })
  else if phoneNumber.length < 10 then
    (st, { success := false, message := "Invalid phone number", newBalance := 0 })
  else if st.record.tokensBalance < amount then
    (st, { success := false, message := "Withdrawal failed: Insufficient balance",
           newBalance := 0 })
  else
    let newBalance := st.record.tokensBalance - amount
    let entry : Transaction :=
      { type := TxType.withdrawal, amount := -amount, balance := newBalance,
        timestamp := now, metadata := { phoneNumber := some phoneNumber } }
    ({ st with
       record := { st.record with tokensBalance := newBalance },
       transactions := st.transactions ++ [entry] },
     { success := true,
       message := "Successfully withdrew " ++ toString amount ++ " tokens to " ++
         phoneNumber,
       newBalance := newBalance })

/-! ## Sequences of committed operations

Every public mutating entry point of the engine, as one operation datatype,
so that invariants can be stated over arbitrary sequences of calls on one
user. Each constructor carries the call arguments together with the
environment inputs (wall clock, collaborator outcomes) of that call. -/

/-- One public mutating call on a single user. -/
inductive Op where
  | reward (uid : String) (startMillis endMillis : Int)
      (manualMinutes : Option Int) (fetchedMinutes : Int) (now : Int)
  | purchase (tokenAmount : Int) (phoneNumber : String)
      (paymentSuccess : Bool) (now : Int)
  | unlock (packageName appName : String) (now : Int)
  | relock (now : Int)
  | invest (mmfId mmfName : String) (tokenAmount unitPrice : Int)
      (phoneNumber : Option String) (paymentSuccess : Bool) (now : Int)
  | withdraw (amount : Int) (phoneNumber : String) (now : Int)
  | lockOne (packageName : String)
  | unlockPermanent (packageName : String)
  | lockMany (packageNames : List String)
  | unlockMany (packageNames : List String)
deriving DecidableEq, Repr

/-- Apply one committed operation to the persisted state, dropping the
caller-visible result. -/
def applyOp (cfg : AppConfig) (st : UserState) : Op → UserState
  | .reward uid s e mm fm now => (awardTokensForWindow cfg uid s e mm fm now st).1
  | .purchase ta pn ps now => (purchaseTokens now ta pn ps st).1
  | .unlock pkg app now => (unlockApp cfg now pkg app st).1
  | .relock now => relockExpiredSessions now st
  | .invest mid mname ta up pn ps now => (investInMMF now mid mname ta up pn ps st).1
  | .withdraw amt pn now => (withdrawTokens now amt pn st).1
  | .lockOne pkg => lockApp pkg st
  | .unlockPermanent pkg => unlockAppPermanently pkg st
  | .lockMany pkgs => lockMultipleApps pkgs st
  | .unlockMany pkgs => unlockMultipleAppsPermanently pkgs st

/-- Run a sequence of committed operations. -/
def runOps (cfg : AppConfig) (ops : List Op) (st : UserState) : UserState :=
  ops.foldl (applyOp cfg) st

/-- Sum of the signed amount fields of a transaction log. -/
def sumAmounts (txs : List Transaction) : Int :=
  (txs.map (fun t => t.amount)).sum

/-- Whether an operation is an externally funded investment (a phone number
is supplied, so the tokens come from an external charge rather than from the
spendable balance). -/
def isExternallyFundedInvest : Op → Bool
  | .invest _ _ _ _ (some _) _ _ => true
  | _ => false

/-! ## Failure reporting

The outcome of the persistence layer for one call: either the value the
transaction body produced, or the message of the error it threw. Each
public entry point of the engine wraps its ledger mutation in a try/catch;
the functions below transcribe, per entry point, what the caller sees as a
function of that outcome. -/

/-- Outcome of a ledger mutation as seen by the catch block. -/
inductive DbResult (α : Type) where
  | ok (value : α)
  | err (message : String)
deriving DecidableEq, Repr

/-- BlockerService.unlockApp maps a thrown ledger error to a structured
failure result. -/
def unlockAppCallerResult (outcome : DbResult UnlockResult) : UnlockResult :=
  match outcome with
  | .ok r => r
  | .err _ => { success := false, newBalance := 0,
                message := "Failed to unlock app. Please try again." }

/-- WalletService.withdrawTokens maps a thrown ledger error to a structured
failure result carrying the error message. -/
def withdrawTokensCallerResult (outcome : DbResult WalletResult) : WalletResult :=
  match outcome with
  | .ok r => r
  | .err msg => { success := false, message := "Withdrawal failed: " ++ msg,
                  newBalance := 0 }

/-- WalletService.purchaseTokens maps a thrown ledger error to a structured
failure result. -/
def purchaseTokensCallerResult (outcome : DbResult WalletResult) : WalletResult :=
  match outcome with
  | .ok r => r
  | .err _ => { success := false,
                message := "Failed to purchase tokens. Please try again.",
                newBalance := 0 }

/-- WalletService.investInMMF maps a thrown ledger error to a structured
failure result carrying the error message. -/
def investInMMFCallerResult (outcome : DbResult InvestResult) : InvestResult :=
  match outcome with
  | .ok r => r
  | .err msg => { success := false, message := "Failed to invest: " ++ msg }

/-- RewardsService.awardTokensForWindow logs a ledger error and rethrows it:
the outcome propagates to the caller unchanged. -/
def awardTokensCallerResult (outcome : DbResult (Int × Int)) :
    DbResult (Int × Int) :=
  match outcome with
  | .ok r => .ok r
  | .err msg => .err msg

/-- BlockerService.relockExpiredSessions returns void and its catch block
only logs the error: the caller sees the unit value whatever the outcome of
the ledger mutation was. -/
def relockCallerResult (outcome : DbResult UserState) : Unit :=
  match outcome with
  | .ok _ => ()
  | .err _ => ()

/-- BlockerService.lockApp logs a ledger error and rethrows it: on success
the caller sees void, on failure the error propagates. -/
def lockAppCallerResult (outcome : DbResult UserState) : DbResult Unit :=
  match outcome with
  | .ok _ => .ok ()
  | .err msg => .err msg

/-- BlockerService.unlockAppPermanently logs a ledger error and rethrows it:
on success the caller sees void, on failure the error propagates. -/
def unlockAppPermanentlyCallerResult (outcome : DbResult UserState) :
    DbResult Unit :=
  match outcome with
  | .ok _ => .ok ()
  | .err msg => .err msg

/-- BlockerService.lockMultipleApps logs a ledger error and rethrows it: on
success the caller sees void, on failure the error propagates. -/
def lockMultipleAppsCallerResult (outcome : DbResult UserState) :
    DbResult Unit :=
  match outcome with
  | .ok _ => .ok ()
  | .err msg => .err msg

/-- BlockerService.unlockMultipleAppsPermanently logs a ledger error and
rethrows it: on success the caller sees void, on failure the error
propagates. -/
def unlockMultipleAppsPermanentlyCallerResult (outcome : DbResult UserState) :
    DbResult Unit :=
  match outcome with
  | .ok _ => .ok ()
  | .err msg => .err msg

/-! ## Concurrency model

A body passed to Firestore runTransaction executes atomically with respect
to every other write on the documents it read: one whole transaction is one
atomic step. relockExpiredSessions, however, reads the user document with a
plain get and later writes it with a plain update; another transaction can
commit between those two steps. The definition below is the interleaving in
which an unlockApp transaction commits between the read and the write of a
concurrent relockExpiredSessions on the same user. -/

/-- relockExpiredSessions reads its snapshot, then a concurrent unlockApp
transaction commits, then the relock update computed from the (now stale)
snapshot is written. -/
def relockUnlockInterleaved (cfg : AppConfig) (now : Int)
    (packageName appName : String) (st : UserState) : UserState :=
  let snap := relockRead st
  let st1 := (unlockApp cfg now packageName appName st).1
  relockWrite now snap st1

/-- The concrete user state of the serializability counterexample: balance
exactly one unlock cost, one locked app, one expired unlock session for a
different app. -/
def c7State : UserState :=
  { record := { tokensBalance := 20, lockedApps := ["com.x"],
                unlockSessions := [{ packageName := "com.y", unlockedAt := 0,
                                     expiresAt := 50 }],
                mmfPreference := none },
    transactions := [], investments := [], processedWindows := [] }

/-! ## Helper lemmas -/

/-- Membership in the dedup accumulator run. -/
lemma mem_jsSetDedupAux (a : String) :
    ∀ (l seen : List String), a ∈ jsSetDedupAux seen l ↔ a ∈ l ∧ a ∉ seen := by
  intro l
  induction l with
  | nil => intro seen; simp [jsSetDedupAux]
  | cons b l ih =>
    intro seen
    by_cases hb : b ∈ seen
    · by_cases hab : a = b
      · subst hab; simp [jsSetDedupAux, hb, ih]
      · simp [jsSetDedupAux, hb, ih, hab]
    · by_cases hab : a = b
      · subst hab; simp [jsSetDedupAux, hb, ih]
      · simp [jsSetDedupAux, hb, ih, hab]

/-- jsSetDedup preserves membership. -/
lemma mem_jsSetDedup (a : String) (l : List String) :
    a ∈ jsSetDedup l ↔ a ∈ l := by
  simp [jsSetDedup, mem_jsSetDedupAux]

/-- If the idempotency marker is present, awardTokensForWindow is a no-op
returning zero tokens and zero minutes. -/
lemma award_noop_of_processed (cfg : AppConfig) (uid : String)
    (startMillis endMillis : Int) (manualMinutes : Option Int)
    (fetchedMinutes now : Int) (st : UserState)
    (h : generateWindowId uid startMillis endMillis ∈ st.processedWindows) :
    awardTokensForWindow cfg uid startMillis endMillis manualMinutes
      fetchedMinutes now st = (st, 0, 0) := by
  simp [awardTokensForWindow, h]

/-- After any awardTokensForWindow call, the idempotency marker of its
window is present. -/
lemma award_marks (cfg : AppConfig) (uid : String) (startMillis endMillis : Int)
    (manualMinutes : Option Int) (fetchedMinutes now : Int) (st : UserState) :
    generateWindowId uid startMillis endMillis ∈
      (awardTokensForWindow cfg uid startMillis endMillis manualMinutes
        fetchedMinutes now st).1.processedWindows := by
  by_cases h : generateWindowId uid startMillis endMillis ∈ st.processedWindows
  · simp [awardTokensForWindow, h]
  · simp only [awardTokensForWindow, if_neg h]
    split <;> simp

/-! ## Claims -/

/-- C1: for every user and window key, if the idempotency marker exists at
the start of the call, awardTokensForWindow returns (0, 0) and performs no
ledger mutation at all; consequently a second call with identical arguments
after a first call is such a no-op, so two identical calls credit the ledger
at most once. -/
theorem creditWindow_idempotent (cfg : AppConfig) (uid : String)
    (startMillis endMillis : Int) (manualMinutes : Option Int)
    (fetchedMinutes now fetchedMinutes2 now2 : Int) (st : UserState) :
    (generateWindowId uid startMillis endMillis ∈ st.processedWindows →
      awardTokensForWindow cfg uid startMillis endMillis manualMinutes
        fetchedMinutes now st = (st, 0, 0))
    ∧ awardTokensForWindow cfg uid startMillis endMillis manualMinutes
        fetchedMinutes2 now2
        (awardTokensForWindow cfg uid startMillis endMillis manualMinutes
          fetchedMinutes now st).1
      = ((awardTokensForWindow cfg uid startMillis endMillis manualMinutes
          fetchedMinutes now st).1, 0, 0) :=
  ⟨award_noop_of_processed cfg uid startMillis endMillis manualMinutes
      fetchedMinutes now st,
   award_noop_of_processed cfg uid startMillis endMillis manualMinutes
      fetchedMinutes2 now2 _
      (award_marks cfg uid startMillis endMillis manualMinutes
        fetchedMinutes now st)⟩

/-- Witness for C1 at a concrete input: the marker is present in the state
left by a first call, and the theorem instantiates there. -/
theorem creditWindow_idempotent_witness :
    (generateWindowId "user123" 0 3600000 ∈
        (awardTokensForWindow defaultConfig "user123" 0 3600000 (some 120) 0 0
          initialUserState).1.processedWindows)
    ∧ awardTokensForWindow defaultConfig "user123" 0 3600000 (some 120) 0 0
        (awardTokensForWindow defaultConfig "user123" 0 3600000 (some 120) 0 0
          initialUserState).1
      = ((awardTokensForWindow defaultConfig "user123" 0 3600000 (some 120) 0 0
          initialUserState).1, 0, 0) :=
  ⟨by decide,
   (creditWindow_idempotent defaultConfig "user123" 0 3600000 (some 120) 0 0 0 0
      (awardTokensForWindow defaultConfig "user123" 0 3600000 (some 120) 0 0
        initialUserState).1).1 (by decide)⟩

/-- C6: for a fresh window and a non-negative minutes total, creditWindow
awards floor(totalMinutes / 60) * tokensPerHour; with 120 measured minutes
at the default 10 tokens per hour it awards exactly 20 tokens, and with 45
minutes it awards 0 tokens and still writes the idempotency marker. -/
theorem reward_formula (cfg : AppConfig) (uid : String)
    (startMillis endMillis m fetchedMinutes now : Int) (st : UserState)
    (hnew : generateWindowId uid startMillis endMillis ∉ st.processedWindows)
    (hm : 0 ≤ m) :
    ((awardTokensForWindow cfg uid startMillis endMillis (some m)
        fetchedMinutes now st).2.1 = Int.fdiv m 60 * cfg.tokensPerHour)
    ∧ (awardTokensForWindow defaultConfig "user123" 0 3600000 (some 120) 0 0
        initialUserState).2.1 = 20
    ∧ (awardTokensForWindow defaultConfig "user123" 0 3600000 (some 45) 0 0
        initialUserState).2.1 = 0
    ∧ generateWindowId "user123" 0 3600000 ∈
        (awardTokensForWindow defaultConfig "user123" 0 3600000 (some 45) 0 0
          initialUserState).1.processedWindows := by
  refine ⟨?_, by decide, by decide, by decide⟩
  unfold awardTokensForWindow
  simp only [if_neg hnew]
  split
  · next h =>
    unfold calculateTokens at h
    simpa using h.symm
  · next h =>
    simp [calculateTokens]

/-- Witness for C6 at a concrete input: a fresh window, 90 non-negative
minutes, default configuration, awarding 10 tokens (one full hour). -/
theorem reward_formula_witness :
    (awardTokensForWindow defaultConfig "user123" 0 3600000 (some 90) 0 0
        initialUserState).2.1 = Int.fdiv 90 60 * defaultConfig.tokensPerHour :=
  (reward_formula defaultConfig "user123" 0 3600000 90 0 0 initialUserState
    (by decide) (by decide)).1

/-- C2 (failing input): the reward-crediting entry point checks tokensAwarded
for equality with zero instead of positivity, so a minutes override of -60
yields tokensAwarded = floor(-60 / 60) * 10 = -10 and the ledger commits a
negative credit: starting from a zero balance, one committed creditWindow
call leaves tokensBalance = -10 < 0, violating the non-negative balance
invariant. -/
theorem nonNegative_balance_failing_input :
    (runOps defaultConfig [Op.reward "user123" 0 3600000 (some (-60)) 0 0]
        initialUserState).record.tokensBalance < 0 := by
  decide

/-- C4: when the balance is strictly below the debit amount, the debit
operations fail with no partial debit applied: unlockApp returns a failure
carrying the unchanged balance and leaves the state untouched (no session
created, no Transaction entry appended), and withdrawTokens returns a
failure and leaves the state untouched. -/
theorem insufficient_balance_no_partial_debit (cfg : AppConfig)
    (now now2 amount : Int) (packageName appName phoneNumber : String)
    (st : UserState)
    (hu : st.record.tokensBalance < cfg.unlockCostTokens)
    (hw : st.record.tokensBalance < amount) :
    ((unlockApp cfg now packageName appName st).1 = st
      ∧ (unlockApp cfg now packageName appName st).2.success = false
      ∧ (unlockApp cfg now packageName appName st).2.newBalance
          = st.record.tokensBalance)
    ∧ ((withdrawTokens now2 amount phoneNumber st).1 = st
      ∧ (withdrawTokens now2 amount phoneNumber st).2.success = false) := by
  constructor
  · simp [unlockApp, hu]
  · unfold withdrawTokens
    split_ifs <;> simp_all

/-- Witness for C4 at a concrete input: balance 15, unlock cost 20,
withdrawal amount 20. -/
theorem insufficient_balance_no_partial_debit_witness :
    (((unlockApp defaultConfig 0 "com.x" "X"
          { record := { tokensBalance := 15, lockedApps := ["com.x"],
                        unlockSessions := [], mmfPreference := none },
            transactions := [], investments := [], processedWindows := [] }).1
        = { record := { tokensBalance := 15, lockedApps := ["com.x"],
                        unlockSessions := [], mmfPreference := none },
            transactions := [], investments := [], processedWindows := [] })
      ∧ (unlockApp defaultConfig 0 "com.x" "X"
          { record := { tokensBalance := 15, lockedApps := ["com.x"],
                        unlockSessions := [], mmfPreference := none },
            transactions := [], investments := [], processedWindows := [] }).2.success
          = false
      ∧ (unlockApp defaultConfig 0 "com.x" "X"
          { record := { tokensBalance := 15, lockedApps := ["com.x"],
                        unlockSessions := [], mmfPreference := none },
            transactions := [], investments := [], processedWindows := [] }).2.newBalance
          = ({ record := { tokensBalance := 15, lockedApps := ["com.x"],
                           unlockSessions := [], mmfPreference := none },
               transactions := [], investments := [],
               processedWindows := [] } : UserState).record.tokensBalance)
    ∧ ((withdrawTokens 0 20 "254712345678"
          { record := { tokensBalance := 15, lockedApps := ["com.x"],
                        unlockSessions := [], mmfPreference := none },
            transactions := [], investments := [], processedWindows := [] }).1
        = { record := { tokensBalance := 15, lockedApps := ["com.x"],
                        unlockSessions := [], mmfPreference := none },
            transactions := [], investments := [], processedWindows := [] }
      ∧ (withdrawTokens 0 20 "254712345678"
          { record := { tokensBalance := 15, lockedApps := ["com.x"],
                        unlockSessions := [], mmfPreference := none },
            transactions := [], investments := [], processedWindows := [] }).2.success
          = false) :=
  insufficient_balance_no_partial_debit defaultConfig 0 0 20 "com.x" "X"
    "254712345678" _ (by decide) (by decide)

/-- Reconciliation is a no-op when no session has expired. -/
lemma relock_noop (t : Int) (st : UserState)
    (h : ∀ s ∈ st.record.unlockSessions, t < s.expiresAt) :
    relockExpiredSessions t st = st := by
  unfold relockExpiredSessions relockWrite relockRead
  have hnil : st.record.unlockSessions.filter (fun s => s.expiresAt ≤ t) = [] := by
    rw [List.filter_eq_nil_iff]
    intro s hs
    simpa using h s hs
  simp [hnil]

/-- Effect of reconciliation when at least one session has expired: the
expired packages are unioned back into lockedApps (deduplicated) and only
the still-active sessions are kept. -/
lemma relock_expired_effect (t : Int) (st : UserState) (s : UnlockSession)
    (hs : s ∈ st.record.unlockSessions) (hexp : s.expiresAt ≤ t) :
    (relockExpiredSessions t st).record.lockedApps
      = jsSetDedup (st.record.lockedApps ++
          (st.record.unlockSessions.filter (fun x => x.expiresAt ≤ t)).map
            (fun x => x.packageName))
    ∧ (relockExpiredSessions t st).record.unlockSessions
      = st.record.unlockSessions.filter (fun x => x.expiresAt > t) := by
  have hmem : s ∈ st.record.unlockSessions.filter (fun x => x.expiresAt ≤ t) :=
    List.mem_filter.mpr ⟨hs, by simpa using hexp⟩
  have hne : st.record.unlockSessions.filter (fun x => x.expiresAt ≤ t) ≠ [] := by
    intro hnil
    rw [hnil] at hmem
    exact absurd hmem (List.not_mem_nil s)
  unfold relockExpiredSessions relockWrite relockRead
  simp [hne]

/-- C5: with sufficient balance, spendUnlock debits exactly the unlock cost,
removes the package from lockedApps, drops the already-expired sessions and
appends one session with unlockedAt = now and expiresAt = now plus the
configured duration; reconciling at any time at or past that expiry restores
the package to lockedApps (deduplicated) and removes the expired session
from unlockSessions; and reconciliation is a no-op on a record with no
expired session. -/
theorem unlock_session_lifecycle (cfg : AppConfig) (now : Int)
    (packageName appName : String) (st : UserState)
    (hbal : cfg.unlockCostTokens ≤ st.record.tokensBalance) :
    ((unlockApp cfg now packageName appName st).2.success = true)
    ∧ ((unlockApp cfg now packageName appName st).1.record.tokensBalance
        = st.record.tokensBalance - cfg.unlockCostTokens)
    ∧ packageName ∉ (unlockApp cfg now packageName appName st).1.record.lockedApps
    ∧ ((unlockApp cfg now packageName appName st).1.record.unlockSessions
        = st.record.unlockSessions.filter (fun s => s.expiresAt > now)
          ++ [{ packageName := packageName, unlockedAt := now,
                expiresAt := now + cfg.unlockDurationMinutes * 60 * 1000 }])
    ∧ (∀ t : Int, now + cfg.unlockDurationMinutes * 60 * 1000 ≤ t →
        packageName ∈ (relockExpiredSessions t
            (unlockApp cfg now packageName appName st).1).record.lockedApps
        ∧ ({ packageName := packageName, unlockedAt := now,
             expiresAt := now + cfg.unlockDurationMinutes * 60 * 1000 } : UnlockSession)
            ∉ (relockExpiredSessions t
                (unlockApp cfg now packageName appName st).1).record.unlockSessions)
    ∧ (∀ (t : Int) (st2 : UserState),
        (∀ s ∈ st2.record.unlockSessions, t < s.expiresAt) →
        relockExpiredSessions t st2 = st2) := by
  have hlt : ¬ st.record.tokensBalance < cfg.unlockCostTokens := not_lt.mpr hbal
  have hsess : ({ packageName := packageName, unlockedAt := now,
                  expiresAt := now + cfg.unlockDurationMinutes * 60 * 1000 } :
      UnlockSession)
      ∈ (unlockApp cfg now packageName appName st).1.record.unlockSessions := by
    simp [unlockApp, hlt]
  refine ⟨?_, ?_, ?_, ?_, ?_, fun t st2 h => relock_noop t st2 h⟩
  · simp [unlockApp, hlt]
  · simp [unlockApp, hlt]
  · simp [unlockApp, hlt]
  · simp [unlockApp, hlt]
  · intro t ht
    have heff := relock_expired_effect t (unlockApp cfg now packageName appName st).1
      _ hsess (by simpa using ht)
    constructor
    · rw [heff.1]
      refine (mem_jsSetDedup _ _).mpr (List.mem_append.mpr (Or.inr ?_))
      exact List.mem_map.mpr
        ⟨_, List.mem_filter.mpr ⟨hsess, by simpa using ht⟩, rfl⟩
    · rw [heff.2]
      intro hc
      have hgt := (List.mem_filter.mp hc).2
      simp at hgt
      omega

/-- Witness for C5 at a concrete input: balance 100, default configuration
(cost 20, duration 60 minutes), unlocking com.x at time 0 and reconciling. -/
theorem unlock_session_lifecycle_witness :
    ((unlockApp defaultConfig 0 "com.x" "X"
        { record := { tokensBalance := 100, lockedApps := ["com.x", "com.y"],
                      unlockSessions := [], mmfPreference := none },
          transactions := [], investments := [], processedWindows := [] }).2.success
      = true)
    ∧ ((unlockApp defaultConfig 0 "com.x" "X"
        { record := { tokensBalance := 100, lockedApps := ["com.x", "com.y"],
                      unlockSessions := [], mmfPreference := none },
          transactions := [], investments := [], processedWindows := [] }).1.record.tokensBalance
      = 100 - defaultConfig.unlockCostTokens)
    ∧ ("com.x" ∈ (relockExpiredSessions 3600001
        (unlockApp defaultConfig 0 "com.x" "X"
          { record := { tokensBalance := 100, lockedApps := ["com.x", "com.y"],
                        unlockSessions := [], mmfPreference := none },
            transactions := [], investments := [],
            processedWindows := [] }).1).record.lockedApps) := by
  have h := unlock_session_lifecycle defaultConfig 0 "com.x" "X"
    { record := { tokensBalance := 100, lockedApps := ["com.x", "com.y"],
                  unlockSessions := [], mmfPreference := none },
      transactions := [], investments := [], processedWindows := [] }
    (by decide)
  exact ⟨h.1, h.2.1, (h.2.2.2.2.1 3600001 (by decide)).1⟩

/-- Appending one entry adds its amount to the log sum. -/
lemma sumAmounts_append (txs : List Transaction) (e : Transaction) :
    sumAmounts (txs ++ [e]) = sumAmounts txs + e.amount := by
  simp [sumAmounts]

/-- Every committed operation other than an externally funded investment
preserves the conservation invariant: the sum of logged amounts equals the
balance. -/
lemma applyOp_conserves (cfg : AppConfig) (st : UserState) (op : Op)
    (hop : isExternallyFundedInvest op = false)
    (hinv : sumAmounts st.transactions = st.record.tokensBalance) :
    sumAmounts (applyOp cfg st op).transactions
      = (applyOp cfg st op).record.tokensBalance := by
  cases op with
  | reward uid s e mm fm now =>
    simp only [applyOp, awardTokensForWindow]
    split_ifs <;> simp [sumAmounts_append, hinv]
  | purchase ta pn ps now =>
    simp only [applyOp, purchaseTokens]
    split_ifs <;> simp [sumAmounts_append, hinv]
  | unlock pkg app now =>
    simp only [applyOp, unlockApp]
    split_ifs <;> simp [sumAmounts_append, hinv] <;> omega
  | relock now =>
    simp only [applyOp, relockExpiredSessions, relockWrite, relockRead]
    split_ifs <;> simp [hinv]
  | invest mid mname ta up pn ps now =>
    cases pn with
    | some p => exact absurd hop (by simp [isExternallyFundedInvest])
    | none =>
      simp only [applyOp, investInMMF, Option.isSome_none, Option.isNone_none]
      split_ifs <;> simp_all [sumAmounts_append] <;> omega
  | withdraw amt pn now =>
    simp only [applyOp, withdrawTokens]
    split_ifs <;> simp [sumAmounts_append, hinv] <;> omega
  | lockOne pkg =>
    simp only [applyOp, lockApp]
    split_ifs <;> simp [hinv]
  | unlockPermanent pkg =>
    simp only [applyOp, unlockAppPermanently]
    simp [hinv]
  | lockMany pkgs =>
    simp only [applyOp, lockMultipleApps]
    simp [hinv]
  | unlockMany pkgs =>
    simp only [applyOp, unlockMultipleAppsPermanently]
    simp [hinv]

/-- The conservation invariant is preserved along any sequence of committed
operations that contains no externally funded investment. -/
lemma runOps_conserves (cfg : AppConfig) (ops : List Op) :
    ∀ (st : UserState), (∀ op ∈ ops, isExternallyFundedInvest op = false) →
      sumAmounts st.transactions = st.record.tokensBalance →
      sumAmounts (runOps cfg ops st).transactions
        = (runOps cfg ops st).record.tokensBalance := by
  induction ops with
  | nil => intro st _ hinv; exact hinv
  | cons op ops ih =>
    intro st h hinv
    exact ih _ (fun o ho => h o (List.mem_cons_of_mem op ho))
      (applyOp_conserves cfg st op (h op (List.mem_cons_self op ops)) hinv)

/-- C3 counterexample: starting from the initial balance 0, a single
committed externally funded investment (investInMMF with a payment
reference) appends an investment entry with positive amount 100 without
crediting the balance, so the sum of the entry amounts (100) is not the
current balance (0). -/
theorem conservation_fails_on_external_investment :
    sumAmounts (runOps defaultConfig
        [Op.invest "cic_mmf" "CIC Money Market Fund" 100 50
          (some "254712345678") true 1000] initialUserState).transactions
      ≠ (runOps defaultConfig
        [Op.invest "cic_mmf" "CIC Money Market Fund" 100 50
          (some "254712345678") true 1000] initialUserState).record.tokensBalance := by
  decide

/-- C3 (amended): for every user starting from balance 0 and every sequence
of committed operations none of which is an externally funded investment,
the sum of the signed amounts of all Transaction entries equals the current
tokensBalance. (An externally funded investment writes a positive-amount
entry without crediting the balance, so it is the one operation outside the
conservation law.) -/
theorem conservation_without_external_investment (cfg : AppConfig)
    (ops : List Op)
    (h : ∀ op ∈ ops, isExternallyFundedInvest op = false) :
    sumAmounts (runOps cfg ops initialUserState).transactions
      = (runOps cfg ops initialUserState).record.tokensBalance :=
  runOps_conserves cfg ops initialUserState h rfl

/-- Witness for amended C3 at a concrete input: a purchase, an unlock spend,
a reward credit, a balance-funded investment and a withdrawal. -/
theorem conservation_without_external_investment_witness :
    sumAmounts (runOps defaultConfig
        [Op.purchase 100 "254712345678" true 0,
         Op.unlock "com.x" "X" 10,
         Op.reward "user123" 0 3600000 (some 120) 0 20,
         Op.invest "cic_mmf" "CIC Money Market Fund" 40 50 none true 30,
         Op.withdraw 30 "254712345678" 40] initialUserState).transactions
      = (runOps defaultConfig
        [Op.purchase 100 "254712345678" true 0,
         Op.unlock "com.x" "X" 10,
         Op.reward "user123" 0 3600000 (some 120) 0 20,
         Op.invest "cic_mmf" "CIC Money Market Fund" 40 50 none true 30,
         Op.withdraw 30 "254712345678" 40] initialUserState).record.tokensBalance :=
  conservation_without_external_investment defaultConfig _ (by decide)

/-- An unlockApp call on an insufficient balance changes nothing and
returns a failure carrying the unchanged balance. -/
lemma unlockApp_insufficient (cfg : AppConfig) (now : Int)
    (packageName appName : String) (st : UserState)
    (h : st.record.tokensBalance < cfg.unlockCostTokens) :
    (unlockApp cfg now packageName appName st).1 = st
    ∧ (unlockApp cfg now packageName appName st).2.success = false
    ∧ (unlockApp cfg now packageName appName st).2.newBalance
        = st.record.tokensBalance := by
  simp [unlockApp, h]

/-- C7 counterexample: serializability fails, because the read and the write
of relockExpiredSessions are separate, non-transactional Firestore
operations. At the concrete state c7State (balance 20, com.x locked, one
expired session for com.y), the interleaving read, unlock transaction, write
produces a state equal to neither serial order: the committed unlock of
com.x, paid with 20 tokens, is overwritten — com.x is re-locked and its
session erased while the debit stands. -/
theorem relock_interleaving_not_serializable :
    relockUnlockInterleaved defaultConfig 100 "com.x" "X" c7State
      ≠ (unlockApp defaultConfig 100 "com.x" "X"
          (relockExpiredSessions 100 c7State)).1
    ∧ relockUnlockInterleaved defaultConfig 100 "com.x" "X" c7State
      ≠ relockExpiredSessions 100
          (unlockApp defaultConfig 100 "com.x" "X" c7State).1 := by
  decide

/-- C7 (amended): mutations that run inside the Firestore transaction
primitive are atomic and serialized; for two spendUnlock transactions on one
user, in either serial order, on a balance covering exactly one unlock cost,
the first call succeeds, the second fails with the insufficient-balance
result and mutates nothing, and the two calls observe different before
balances. relockExpiredSessions, whose read-modify-write runs outside a
transaction, is not serialized (see the counterexample). -/
theorem transactional_spends_serialized (now1 now2 : Int)
    (pkg1 app1 pkg2 app2 : String) (st : UserState)
    (h1 : defaultConfig.unlockCostTokens ≤ st.record.tokensBalance)
    (h2 : st.record.tokensBalance < 2 * defaultConfig.unlockCostTokens) :
    ((unlockApp defaultConfig now1 pkg1 app1 st).2.success = true)
    ∧ ((unlockApp defaultConfig now2 pkg2 app2
          (unlockApp defaultConfig now1 pkg1 app1 st).1).2.success = false)
    ∧ ((unlockApp defaultConfig now2 pkg2 app2
          (unlockApp defaultConfig now1 pkg1 app1 st).1).1
        = (unlockApp defaultConfig now1 pkg1 app1 st).1)
    ∧ ((unlockApp defaultConfig now1 pkg1 app1 st).1.record.tokensBalance
        ≠ st.record.tokensBalance) := by
  have hc : defaultConfig.unlockCostTokens = 20 := rfl
  have hlt1 : ¬ st.record.tokensBalance < defaultConfig.unlockCostTokens :=
    not_lt.mpr h1
  have hbal1 : (unlockApp defaultConfig now1 pkg1 app1 st).1.record.tokensBalance
      = st.record.tokensBalance - defaultConfig.unlockCostTokens := by
    simp [unlockApp, hlt1]
  have hlt2 : (unlockApp defaultConfig now1 pkg1 app1 st).1.record.tokensBalance
      < defaultConfig.unlockCostTokens := by
    rw [hbal1, hc]
    rw [hc] at h2
    omega
  have hfail := unlockApp_insufficient defaultConfig now2 pkg2 app2
    (unlockApp defaultConfig now1 pkg1 app1 st).1 hlt2
  refine ⟨by simp [unlockApp, hlt1], hfail.2.1, hfail.1, ?_⟩
  rw [hbal1, hc]
  omega

/-- Witness for amended C7 at a concrete input: c7State has balance 20,
covering exactly one unlock at the default cost. -/
theorem transactional_spends_serialized_witness :
    ((unlockApp defaultConfig 100 "com.x" "X" c7State).2.success = true)
    ∧ ((unlockApp defaultConfig 200 "com.y" "Y"
          (unlockApp defaultConfig 100 "com.x" "X" c7State).1).2.success = false)
    ∧ ((unlockApp defaultConfig 200 "com.y" "Y"
          (unlockApp defaultConfig 100 "com.x" "X" c7State).1).1
        = (unlockApp defaultConfig 100 "com.x" "X" c7State).1)
    ∧ ((unlockApp defaultConfig 100 "com.x" "X" c7State).1.record.tokensBalance
        ≠ c7State.record.tokensBalance) :=
  transactional_spends_serialized 100 200 "com.x" "X" "com.y" "Y" c7State
    (by decide) (by decide)

/-- C8: a balance-funded investment (no payment reference) with positive
amount and unit price and sufficient balance succeeds, computes real-valued
units = tokenAmount / unitPrice, debits tokenAmount, appends one investment
entry of amount -tokenAmount and stores the position with that fund id,
amount and units; a non-positive amount or unit price is rejected before any
mutation. -/
theorem invest_balance_funded (now : Int) (mmfId mmfName : String)
    (tokenAmount unitPrice : Int) (st : UserState)
    (hta : 0 < tokenAmount) (hup : 0 < unitPrice)
    (hbal : tokenAmount ≤ st.record.tokensBalance) :
    ((investInMMF now mmfId mmfName tokenAmount unitPrice none true st).2.success
      = true)
    ∧ ((investInMMF now mmfId mmfName tokenAmount unitPrice none true
          st).1.record.tokensBalance
        = st.record.tokensBalance - tokenAmount)
    ∧ ((investInMMF now mmfId mmfName tokenAmount unitPrice none true
          st).1.transactions
        = st.transactions ++
          [{ type := TxType.investment, amount := -tokenAmount,
             balance := st.record.tokensBalance - tokenAmount, timestamp := now,
             metadata := { mmfId := some mmfId, mmfName := some mmfName,
                           phoneNumber := none } }])
    ∧ ((investInMMF now mmfId mmfName tokenAmount unitPrice none true
          st).1.investments
        = st.investments ++
          [{ mmfId := mmfId, mmfName := mmfName, amount := tokenAmount,
             units := (tokenAmount : ℚ) / (unitPrice : ℚ), timestamp := now }])
    ∧ (∀ (phoneNumber : Option String) (paymentSuccess : Bool) (ta up : Int),
        ta ≤ 0 ∨ up ≤ 0 →
        (investInMMF now mmfId mmfName ta up phoneNumber paymentSuccess st).1 = st
        ∧ (investInMMF now mmfId mmfName ta up phoneNumber
            paymentSuccess st).2.success = false) := by
  have hnl : ¬ st.record.tokensBalance < tokenAmount := not_lt.mpr hbal
  refine ⟨?_, ?_, ?_, ?_, ?_⟩
  · simp [investInMMF, not_le.mpr hta, not_le.mpr hup, hnl]
  · simp [investInMMF, not_le.mpr hta, not_le.mpr hup, hnl]
  · simp [investInMMF, not_le.mpr hta, not_le.mpr hup, hnl]
  · simp [investInMMF, not_le.mpr hta, not_le.mpr hup, hnl]
  · rintro pn ps ta up (h | h)
    · constructor <;> simp [investInMMF, h]
    · by_cases hta2 : ta ≤ 0
      · constructor <;> simp [investInMMF, hta2]
      · constructor <;> simp [investInMMF, hta2, h]

/-- Witness for C8 at a concrete input: investing 100 tokens at unit price
50 from a balance of 100 yields units = 2 and a -100 entry; amount 0 is
rejected. -/
theorem invest_balance_funded_witness :
    ((investInMMF 1000 "cic_mmf" "CIC Money Market Fund" 100 50 none true
        { record := { tokensBalance := 100, lockedApps := [],
                      unlockSessions := [], mmfPreference := none },
          transactions := [], investments := [],
          processedWindows := [] }).2.success = true)
    ∧ ((investInMMF 1000 "cic_mmf" "CIC Money Market Fund" 100 50 none true
        { record := { tokensBalance := 100, lockedApps := [],
                      unlockSessions := [], mmfPreference := none },
          transactions := [], investments := [],
          processedWindows := [] }).1.investments
      = [{ mmfId := "cic_mmf", mmfName := "CIC Money Market Fund",
           amount := 100, units := (100 : ℚ) / (50 : ℚ), timestamp := 1000 }])
    ∧ ((investInMMF 1000 "cic_mmf" "CIC Money Market Fund" 0 50 none true
        { record := { tokensBalance := 100, lockedApps := [],
                      unlockSessions := [], mmfPreference := none },
          transactions := [], investments := [],
          processedWindows := [] }).1
      = { record := { tokensBalance := 100, lockedApps := [],
                      unlockSessions := [], mmfPreference := none },
          transactions := [], investments := [], processedWindows := [] }) := by
  have h := invest_balance_funded 1000 "cic_mmf" "CIC Money Market Fund" 100 50
    { record := { tokensBalance := 100, lockedApps := [],
                  unlockSessions := [], mmfPreference := none },
      transactions := [], investments := [], processedWindows := [] }
    (by decide) (by decide) (by decide)
  refine ⟨h.1, ?_, (h.2.2.2.2 none true 0 50 (Or.inl (by decide))).1⟩
  have h4 := h.2.2.2.1
  simpa using h4

/-- C9 counterexample: reconcile (relockExpiredSessions) returns void and
its catch block only logs, so the caller-visible outcome of a failed ledger
mutation is identical to that of a successful one: the failure is silently
swallowed, contradicting the claim that every public entry point reports
ledger-mutation failures as a success or failure result. -/
theorem reconcile_swallows_mutation_failure :
    relockCallerResult (DbResult.err "Firestore update failed")
      = relockCallerResult (DbResult.ok initialUserState) := rfl

/-- C9 (amended): every public mutating entry point except reconcile reports
a ledger-mutation failure to its caller: unlockApp, withdrawTokens,
purchaseTokens and investInMMF surface it as a success = false result;
awardTokensForWindow and the four lock-set edits (lockApp,
unlockAppPermanently, lockMultipleApps, unlockMultipleAppsPermanently)
rethrow it; only relockExpiredSessions returns unit and swallows it.
Read-side aggregate queries degrade to empty or zero results, as the claim
allows. -/
theorem entry_points_report_failures (msg : String) :
    ((unlockAppCallerResult (DbResult.err msg)).success = false)
    ∧ ((withdrawTokensCallerResult (DbResult.err msg)).success = false)
    ∧ ((purchaseTokensCallerResult (DbResult.err msg)).success = false)
    ∧ ((investInMMFCallerResult (DbResult.err msg)).success = false)
    ∧ (awardTokensCallerResult (DbResult.err msg) = DbResult.err msg)
    ∧ (lockAppCallerResult (DbResult.err msg) = DbResult.err msg)
    ∧ (unlockAppPermanentlyCallerResult (DbResult.err msg) = DbResult.err msg)
    ∧ (lockMultipleAppsCallerResult (DbResult.err msg) = DbResult.err msg)
    ∧ (unlockMultipleAppsPermanentlyCallerResult (DbResult.err msg)
        = DbResult.err msg)
    ∧ (relockCallerResult (DbResult.err msg)
        = relockCallerResult (DbResult.ok initialUserState)) :=
  ⟨rfl, rfl, rfl, rfl, rfl, rfl, rfl, rfl, rfl, rfl⟩

/-- C10: every successful investInMMF sets mmfPreference to the chosen fund
id on the balance record in both funding paths: balance-funded (no payment
reference, sufficient balance) and externally funded (payment reference
present and payment successful). -/
theorem invest_sets_mmf_preference (now : Int) (mmfId mmfName p : String)
    (tokenAmount unitPrice : Int) (st : UserState)
    (hta : 0 < tokenAmount) (hup : 0 < unitPrice) :
    (tokenAmount ≤ st.record.tokensBalance →
      (investInMMF now mmfId mmfName tokenAmount unitPrice none true
        st).1.record.mmfPreference = some mmfId)
    ∧ (investInMMF now mmfId mmfName tokenAmount unitPrice (some p) true
        st).1.record.mmfPreference = some mmfId := by
  constructor
  · intro hbal
    simp [investInMMF, not_le.mpr hta, not_le.mpr hup, not_lt.mpr hbal]
  · simp [investInMMF, not_le.mpr hta, not_le.mpr hup]

/-- Witness for C10 at a concrete input: balance-funded and externally
funded investments both set the preference to cic_mmf. -/
theorem invest_sets_mmf_preference_witness :
    ((investInMMF 1000 "cic_mmf" "CIC Money Market Fund" 100 50 none true
        { record := { tokensBalance := 100, lockedApps := [],
                      unlockSessions := [], mmfPreference := none },
          transactions := [], investments := [],
          processedWindows := [] }).1.record.mmfPreference = some "cic_mmf")
    ∧ ((investInMMF 1000 "cic_mmf" "CIC Money Market Fund" 100 50
        (some "254712345678") true
        { record := { tokensBalance := 100, lockedApps := [],
                      unlockSessions := [], mmfPreference := none },
          transactions := [], investments := [],
          processedWindows := [] }).1.record.mmfPreference = some "cic_mmf") :=
  ⟨(invest_sets_mmf_preference 1000 "cic_mmf" "CIC Money Market Fund"
      "254712345678" 100 50 _ (by decide) (by decide)).1 (by decide),
   (invest_sets_mmf_preference 1000 "cic_mmf" "CIC Money Market Fund"
      "254712345678" 100 50 _ (by decide) (by decide)).2⟩
